import Mathlib

/-!
A shallow embedding of the two C header files of the ExtSupport.PHP5 excerpt:
`Source/ExtSupport/PHP5/API/ext/standard/pack.h` and
`Source/ExtSupport/PHP5/API/main/php_open_temporary_file.h`.

Both files are pure declarations, so the embedding is a syntactic model of a
C header: a type language for the types that occur in the prototypes, function
declarations (with the PHPAPI storage-class marker and the trailing TSRMLS_DC
thread-context marker kept explicit), the PHP_MINIT_FUNCTION / PHP_FUNCTION
declaration forms of pack.h, BEGIN_EXTERN_C / END_EXTERN_C linkage blocks, and
include-guarded preprocessor items with an explicit processing semantics over a
translation-unit state (set of defined guard names, list of emitted
declarations).  The AST deliberately also has constructors for function
definitions, statements and struct definitions, so that the theorems stating
that the excerpt contains none of those are about a model in which they could
occur.
-/

/-- The C types that occur in the declarations of the excerpt.  `constQ`
is the const qualifier and `ptr` the pointer constructor, so for example
`const char *` is `ptr (constQ charT)` and `char **` is `ptr (ptr charT)`. -/
inductive CType where
  | void
  | charT
  | intT
  | fileT
  | zendBool
  | constQ (t : CType)
  | ptr (t : CType)
deriving DecidableEq

/-- Names of the non-primitive named types a C type refers to; the built-in
types `void`, `char`, `int` contribute nothing, while `FILE` and `zend_bool`
are named types defined outside the excerpt. -/
def CType.baseNames : CType → List String
  | .void => []
  | .charT => []
  | .intT => []
  | .fileT => ["FILE"]
  | .zendBool => ["zend_bool"]
  | .constQ t => t.baseNames
  | .ptr t => t.baseNames

/-- Whether a C type is a pointer type. -/
def CType.isPtr : CType → Bool
  | .ptr _ => true
  | _ => false

/-- Whether a C type is a conventional error-code type (a plain `int`). -/
def CType.isErrorCodeType : CType → Bool
  | .intT => true
  | _ => false

/-- A formal parameter of a C function declaration. -/
structure CParam where
  name : String
  ty : CType
deriving DecidableEq

/-- A C function prototype as written in the excerpt: name, return type,
parameter list, whether the parameter list ends with the TSRMLS_DC
thread-context marker, whether the declaration carries the PHPAPI
storage-class marker, and whether it carries an exception specification
(none in the excerpt do). -/
structure CFunDecl where
  name : String
  ret : CType
  params : List CParam
  tsrmls_dc : Bool
  phpapi : Bool
  declaresThrowSpec : Bool
deriving DecidableEq

/-- A statement, for the bodies a function definition would carry; the
excerpt contains no definition, hence no statement of any of these kinds. -/
inductive Stmt where
  | exprStmt
  | ifStmt
  | loopStmt
  | retStmt
deriving DecidableEq

/-- A top-level declaration or definition of a C header. -/
inductive Decl where
  | proto (d : CFunDecl)
  | phpMinit (n : String)
  | phpFunc (n : String)
  | funDef (d : CFunDecl) (body : List Stmt)
  | structDef (n : String) (fields : List CParam)
deriving DecidableEq

/-- The function name a declaration declares, rendered the way the source
writes it. -/
def Decl.fnName : Decl → String
  | .proto d => d.name
  | .phpMinit n => "PHP_MINIT_FUNCTION(" ++ n ++ ")"
  | .phpFunc n => "PHP_FUNCTION(" ++ n ++ ")"
  | .funDef d _ => d.name
  | .structDef n _ => n

/-- Whether a declaration is a function declaration (a prototype or one of
the PHP declaration forms), as opposed to a definition. -/
def Decl.isFunctionDeclaration : Decl → Bool
  | .proto _ => true
  | .phpMinit _ => true
  | .phpFunc _ => true
  | .funDef _ _ => false
  | .structDef _ _ => false

/-- Whether a declaration is a definition (a function body or a struct). -/
def Decl.isDefinition : Decl → Bool
  | .funDef _ _ => true
  | .structDef _ _ => true
  | _ => false

/-- The statements a declaration contains (only a function definition
contains any). -/
def Decl.stmts : Decl → List Stmt
  | .funDef _ body => body
  | _ => []

/-- The type names a declaration defines (only a struct definition defines
one). -/
def Decl.definedTypeNames : Decl → List String
  | .structDef n _ => [n]
  | _ => []

/-- The non-primitive named types a prototype refers to, return type first. -/
def CFunDecl.referencedTypeNames (d : CFunDecl) : List String :=
  d.ret.baseNames ++ d.params.flatMap (fun p => p.ty.baseNames)

/-- The non-primitive named types a declaration refers to. -/
def Decl.referencedTypeNames : Decl → List String
  | .proto d => d.referencedTypeNames
  | .funDef d _ => d.referencedTypeNames
  | _ => []

/-- Whether a declaration carries the TSRMLS_DC thread-context marker. -/
def Decl.usesTSRMLS : Decl → Bool
  | .proto d => d.tsrmls_dc
  | .funDef d _ => d.tsrmls_dc
  | _ => false

/-- Whether a parameter is an error out-parameter: a pointer through which an
error code could be written back to the caller. -/
def isErrorOutParam (p : CParam) : Bool :=
  match p.ty with
  | .ptr t => t.isErrorCodeType
  | _ => false

/-- Whether a declared interface lets a call report a failure to the caller:
it does when the return type is not void or some parameter is a pointer the
callee could write through. -/
def CFunDecl.canReportFailure (d : CFunDecl) : Bool :=
  (match d.ret with
   | CType.void => false
   | _ => true) || d.params.any (fun p => p.ty.isPtr)

/-- A run of declarations of a header, either wrapped in a
BEGIN_EXTERN_C / END_EXTERN_C block or written bare. -/
inductive Block where
  | externC (ds : List Decl)
  | plain (ds : List Decl)
deriving DecidableEq

/-- The declarations of a block. -/
def Block.decls : Block → List Decl
  | .externC ds => ds
  | .plain ds => ds

/-- The declarations of a block that lie inside an extern-C wrapper. -/
def Block.externCDecls : Block → List Decl
  | .externC ds => ds
  | .plain _ => []

/-- A top-level item of a header file: either a region wrapped in an
include guard (ifndef G, define G, body, endif) or a bare block outside
any guard. -/
inductive PPItem where
  | guarded (g : String) (body : List Block)
  | bare (b : Block)
deriving DecidableEq

/-- Whether a header item is protected by an include guard. -/
def PPItem.isGuarded : PPItem → Bool
  | .guarded _ _ => true
  | .bare _ => false

/-- The declarations a header item contributes on a first inclusion. -/
def PPItem.decls : PPItem → List Decl
  | .guarded _ body => body.flatMap Block.decls
  | .bare b => b.decls

/-- The declarations of a header file read in order, guards aside. -/
def fileDecls (f : List PPItem) : List Decl :=
  f.flatMap PPItem.decls

/-- The declarations of a header file that lie inside an extern-C block. -/
def fileExternCDecls (f : List PPItem) : List Decl :=
  f.flatMap (fun it =>
    match it with
    | .guarded _ body => body.flatMap Block.externCDecls
    | .bare b => b.externCDecls)

/-- The state of a translation unit while the preprocessor runs: the guard
names already defined and the declarations emitted so far. -/
structure TUState where
  defined : List String
  emitted : List Decl
deriving DecidableEq

/-- Processing one header item: a guarded region is skipped when its guard
name is already defined and otherwise defines it and emits its body; a bare
block is emitted unconditionally. -/
def processItem (st : TUState) : PPItem → TUState
  | .guarded g body =>
      if g ∈ st.defined then st
      else ⟨g :: st.defined, st.emitted ++ body.flatMap Block.decls⟩
  | .bare b => ⟨st.defined, st.emitted ++ b.decls⟩

/-- Processing a header file item by item. -/
def processFile (st : TUState) (f : List PPItem) : TUState :=
  f.foldl processItem st

/-- The type `const char *`. -/
def constCharPtr : CType := CType.ptr (CType.constQ CType.charT)

/-- The type `char **`. -/
def charPtrPtr : CType := CType.ptr (CType.ptr CType.charT)

/-- Line 32 of php_open_temporary_file.h:
`PHPAPI FILE *php_open_temporary_file(const char *dir, const char *pfx, char **opened_path_p TSRMLS_DC);`. -/
def php_open_temporary_file_decl : CFunDecl :=
  { name := "php_open_temporary_file"
    ret := CType.ptr CType.fileT
    params := [⟨"dir", constCharPtr⟩, ⟨"pfx", constCharPtr⟩,
               ⟨"opened_path_p", charPtrPtr⟩]
    tsrmls_dc := true
    phpapi := true
    declaresThrowSpec := false }

/-- Line 33 of php_open_temporary_file.h:
`PHPAPI int php_open_temporary_fd_ex(const char *dir, const char *pfx, char **opened_path_p, zend_bool open_basedir_check TSRMLS_DC);`. -/
def php_open_temporary_fd_ex_decl : CFunDecl :=
  { name := "php_open_temporary_fd_ex"
    ret := CType.intT
    params := [⟨"dir", constCharPtr⟩, ⟨"pfx", constCharPtr⟩,
               ⟨"opened_path_p", charPtrPtr⟩,
               ⟨"open_basedir_check", CType.zendBool⟩]
    tsrmls_dc := true
    phpapi := true
    declaresThrowSpec := false }

/-- Line 34 of php_open_temporary_file.h:
`PHPAPI int php_open_temporary_fd(const char *dir, const char *pfx, char **opened_path_p TSRMLS_DC);`. -/
def php_open_temporary_fd_decl : CFunDecl :=
  { name := "php_open_temporary_fd"
    ret := CType.intT
    params := [⟨"dir", constCharPtr⟩, ⟨"pfx", constCharPtr⟩,
               ⟨"opened_path_p", charPtrPtr⟩]
    tsrmls_dc := true
    phpapi := true
    declaresThrowSpec := false }

/-- Line 35 of php_open_temporary_file.h:
`PHPAPI const char *php_get_temporary_directory(void);`. -/
def php_get_temporary_directory_decl : CFunDecl :=
  { name := "php_get_temporary_directory"
    ret := constCharPtr
    params := []
    tsrmls_dc := false
    phpapi := true
    declaresThrowSpec := false }

/-- Line 36 of php_open_temporary_file.h:
`PHPAPI void php_shutdown_temporary_directory(void);`. -/
def php_shutdown_temporary_directory_decl : CFunDecl :=
  { name := "php_shutdown_temporary_directory"
    ret := CType.void
    params := []
    tsrmls_dc := false
    phpapi := true
    declaresThrowSpec := false }

/-- The five prototypes of php_open_temporary_file.h in source order. -/
def tempHeaderFunDecls : List CFunDecl :=
  [php_open_temporary_file_decl, php_open_temporary_fd_ex_decl,
   php_open_temporary_fd_decl, php_get_temporary_directory_decl,
   php_shutdown_temporary_directory_decl]

/-- pack.h, lines 29 to 36: the guard PACK_H encloses the three PHP
declaration forms `PHP_MINIT_FUNCTION(pack);`, `PHP_FUNCTION(pack);`,
`PHP_FUNCTION(unpack);`, written outside any extern-C block. -/
def pack_h : List PPItem :=
  [PPItem.guarded "PACK_H"
    [Block.plain
      [Decl.phpMinit "pack", Decl.phpFunc "pack", Decl.phpFunc "unpack"]]]

/-- php_open_temporary_file.h, lines 28 to 39: the guard
PHP_OPEN_TEMPORARY_FILE_H encloses a BEGIN_EXTERN_C / END_EXTERN_C block
holding the five prototypes. -/
def php_open_temporary_file_h : List PPItem :=
  [PPItem.guarded "PHP_OPEN_TEMPORARY_FILE_H"
    [Block.externC (tempHeaderFunDecls.map Decl.proto)]]

/-- All declarations of the excerpt, pack.h first, in source order. -/
def allExcerptDecls : List Decl :=
  fileDecls pack_h ++ fileDecls php_open_temporary_file_h

/-- Modelled from the spec: the expansions of the PHP_MINIT_FUNCTION and
PHP_FUNCTION declaration forms are defined outside the excerpt; the spec
describes every externally visible signature of the excerpt, the three of
pack.h included, as a C-linkage function signature. -/
def phpFunctionFormHasCLinkage : Bool := true

/-- The linkage of a declaration written outside an extern-C block: the PHP
declaration forms have the linkage their expansion gives them, a bare
prototype keeps the linkage of the surrounding translation unit. -/
def Decl.bareCLinkage : Decl → Bool
  | .phpMinit _ => phpFunctionFormHasCLinkage
  | .phpFunc _ => phpFunctionFormHasCLinkage
  | _ => false

/-- The declarations of a block paired with whether each has C linkage. -/
def Block.declsWithLinkage : Block → List (Decl × Bool)
  | .externC ds => ds.map (fun d => (d, true))
  | .plain ds => ds.map (fun d => (d, d.bareCLinkage))

/-- The declarations of a header file paired with their C-linkage status. -/
def fileDeclsWithLinkage (f : List PPItem) : List (Decl × Bool) :=
  f.flatMap (fun it =>
    match it with
    | .guarded _ body => body.flatMap Block.declsWithLinkage
    | .bare b => b.declsWithLinkage)

/-- The leading parameter list as the spec describes it:
`const char *dir, const char *pfx, char **opened_path_p`. -/
def leadingTempParams : List CParam :=
  [⟨"dir", constCharPtr⟩, ⟨"pfx", constCharPtr⟩,
   ⟨"opened_path_p", charPtrPtr⟩]

theorem processFile_nil (st : TUState) : processFile st [] = st := rfl

/-- Including a guarded region whose guard is already defined changes
nothing. -/
theorem processFile_guarded_noop (g : String) (bs : List Block) (st : TUState)
    (h : g ∈ st.defined) :
    processFile st [PPItem.guarded g bs] = st := by
  simp [processFile, processItem, h]

/-- After a guarded region is processed its guard name is defined. -/
theorem guard_defined_after (g : String) (bs : List Block) (st : TUState) :
    g ∈ (processFile st [PPItem.guarded g bs]).defined := by
  by_cases h : g ∈ st.defined <;> simp [processFile, processItem, h]

/-- A guard name once defined stays defined through any further item. -/
theorem mem_defined_processItem (a : String) (st : TUState) (it : PPItem)
    (h : a ∈ st.defined) : a ∈ (processItem st it).defined := by
  cases it with
  | guarded g body =>
      simp only [processItem]
      split
      · exact h
      · exact List.mem_cons_of_mem _ h
  | bare b => exact h

/-- A guard name once defined stays defined through any further file. -/
theorem mem_defined_processFile (a : String) (st : TUState) (f : List PPItem)
    (h : a ∈ st.defined) : a ∈ (processFile st f).defined := by
  induction f generalizing st with
  | nil => exact h
  | cons it f ih => exact ih _ (mem_defined_processItem a st it h)

/-- Claim C1: the externally visible surface of the excerpt is exactly eight
function declarations and nothing else: pack.h declares
PHP_MINIT_FUNCTION(pack), PHP_FUNCTION(pack) and PHP_FUNCTION(unpack), and
php_open_temporary_file.h declares php_open_temporary_file,
php_open_temporary_fd_ex, php_open_temporary_fd,
php_get_temporary_directory and php_shutdown_temporary_directory; no other
function is declared in either file. -/
theorem C1_declared_surface :
    fileDecls pack_h =
      [Decl.phpMinit "pack", Decl.phpFunc "pack", Decl.phpFunc "unpack"] ∧
    (fileDecls php_open_temporary_file_h).map Decl.fnName =
      ["php_open_temporary_file", "php_open_temporary_fd_ex",
       "php_open_temporary_fd", "php_get_temporary_directory",
       "php_shutdown_temporary_directory"] ∧
    allExcerptDecls.length = 8 ∧
    allExcerptDecls.all Decl.isFunctionDeclaration = true :=
  ⟨rfl, rfl, rfl, rfl⟩

/-- Claim C2: both files consist solely of declarations — prototypes and
include guards — with no function definition, no statement, no control flow
and no locally defined data structure; every top-level item of each file is
include-guarded. -/
theorem C2_declarations_only :
    allExcerptDecls.all (fun d => !d.isDefinition) = true ∧
    allExcerptDecls.flatMap Decl.stmts = [] ∧
    allExcerptDecls.flatMap Decl.definedTypeNames = [] ∧
    pack_h.all PPItem.isGuarded = true ∧
    php_open_temporary_file_h.all PPItem.isGuarded = true :=
  ⟨rfl, rfl, rfl, rfl, rfl⟩

/-- Claim C3: the declared failure channel of the temp-file acquisition
functions is their return type alone: php_open_temporary_file returns a
FILE pointer and the two fd variants return int, and no declaration of the
excerpt carries an error out-parameter or an exception specification. -/
theorem C3_failure_channel :
    php_open_temporary_file_decl.ret = CType.ptr CType.fileT ∧
    php_open_temporary_fd_ex_decl.ret = CType.intT ∧
    php_open_temporary_fd_decl.ret = CType.intT ∧
    tempHeaderFunDecls.all
      (fun d => !(d.params.any isErrorOutParam)) = true ∧
    tempHeaderFunDecls.all (fun d => !d.declaresThrowSpec) = true :=
  ⟨rfl, rfl, rfl, rfl, rfl⟩

/-- Claim C4: the TSRMLS_DC thread-context marker appears in exactly the
three temp-file-opening declarations, and neither
php_get_temporary_directory nor php_shutdown_temporary_directory carries
a thread-context parameter. -/
theorem C4_tsrmls_exactly_three :
    allExcerptDecls.filter Decl.usesTSRMLS =
      [Decl.proto php_open_temporary_file_decl,
       Decl.proto php_open_temporary_fd_ex_decl,
       Decl.proto php_open_temporary_fd_decl] ∧
    php_get_temporary_directory_decl.tsrmls_dc = false ∧
    php_shutdown_temporary_directory_decl.tsrmls_dc = false :=
  ⟨rfl, rfl, rfl⟩

/-- Claim C5: the process-wide temp-directory interface is an accessor
php_get_temporary_directory taking no parameters and returning
`const char *`, plus a shutdown operation php_shutdown_temporary_directory
taking no parameters and returning void. -/
theorem C5_tempdir_interface :
    php_get_temporary_directory_decl.params = [] ∧
    php_get_temporary_directory_decl.ret =
      CType.ptr (CType.constQ CType.charT) ∧
    php_shutdown_temporary_directory_decl.params = [] ∧
    php_shutdown_temporary_directory_decl.ret = CType.void :=
  ⟨rfl, rfl, rfl, rfl⟩

/-- Claim C6: neither file defines a type of its own: the excerpt defines no
type names, the non-primitive named types its declarations reference are
exactly FILE and zend_bool (defined elsewhere), and the TSRMLS_DC marker it
references is a thread-context form also defined elsewhere. -/
theorem C6_no_owned_types :
    allExcerptDecls.flatMap Decl.definedTypeNames = [] ∧
    (allExcerptDecls.flatMap Decl.referencedTypeNames).dedup =
      ["FILE", "zend_bool"] ∧
    allExcerptDecls.any Decl.usesTSRMLS = true :=
  ⟨rfl, rfl, rfl⟩

/-- Claim C7: every externally visible function signature of the excerpt has
C linkage: the five declarations of php_open_temporary_file.h all lie inside
its BEGIN_EXTERN_C / END_EXTERN_C block, and the three PHP declaration forms
of pack.h have C linkage through their expansion, as the spec states. -/
theorem C7_c_linkage :
    fileExternCDecls php_open_temporary_file_h =
      fileDecls php_open_temporary_file_h ∧
    (fileDeclsWithLinkage pack_h ++
      fileDeclsWithLinkage php_open_temporary_file_h).all
        (fun p => p.2) = true :=
  ⟨rfl, rfl⟩

/-- Claim C8: the three temp-file-opening declarations share the identical
leading parameter list dir, pfx, opened_path_p, and
php_open_temporary_fd_ex differs from php_open_temporary_fd exactly by the
one additional parameter `zend_bool open_basedir_check` placed before the
thread-context marker, the two signatures otherwise identical, int return
type included. -/
theorem C8_fd_ex_refines_fd :
    php_open_temporary_file_decl.params = leadingTempParams ∧
    php_open_temporary_fd_decl.params = leadingTempParams ∧
    php_open_temporary_fd_ex_decl.params =
      php_open_temporary_fd_decl.params ++
        [⟨"open_basedir_check", CType.zendBool⟩] ∧
    php_open_temporary_fd_ex_decl.ret = php_open_temporary_fd_decl.ret ∧
    php_open_temporary_fd_decl.ret = CType.intT ∧
    php_open_temporary_fd_ex_decl.tsrmls_dc =
      php_open_temporary_fd_decl.tsrmls_dc ∧
    php_open_temporary_fd_ex_decl.phpapi =
      php_open_temporary_fd_decl.phpapi ∧
    php_open_temporary_fd_ex_decl.declaresThrowSpec =
      php_open_temporary_fd_decl.declaresThrowSpec :=
  ⟨rfl, rfl, rfl, rfl, rfl, rfl, rfl, rfl⟩

/-- Claim C9: both headers are fully wrapped in include guards, so inclusion
is idempotent: in any translation unit that has already included a header
once, and whatever other items were processed since, including that header
again changes nothing — in particular it contributes no further
declarations. -/
theorem C9_include_idempotent (st : TUState) (mid : List PPItem) :
    processFile (processFile (processFile st pack_h) mid) pack_h =
      processFile (processFile st pack_h) mid ∧
    processFile
        (processFile (processFile st php_open_temporary_file_h) mid)
        php_open_temporary_file_h =
      processFile (processFile st php_open_temporary_file_h) mid :=
  ⟨processFile_guarded_noop _ _ _
      (mem_defined_processFile _ _ mid (guard_defined_after _ _ st)),
   processFile_guarded_noop _ _ _
      (mem_defined_processFile _ _ mid (guard_defined_after _ _ st))⟩

/-- Witness for C9 at a concrete state: starting from the empty translation
unit and including pack.h between the two inclusions of each header, the
second inclusion changes nothing. -/
theorem C9_include_idempotent_witness :
    processFile (processFile (processFile ⟨[], []⟩ pack_h) pack_h) pack_h =
      processFile (processFile ⟨[], []⟩ pack_h) pack_h ∧
    processFile
        (processFile (processFile ⟨[], []⟩ php_open_temporary_file_h) pack_h)
        php_open_temporary_file_h =
      processFile (processFile ⟨[], []⟩ php_open_temporary_file_h) pack_h :=
  C9_include_idempotent ⟨[], []⟩ pack_h

/-- Claim C10: php_shutdown_temporary_directory is declared with return type
void and no parameters, so its declared interface gives a call no way to
report a failure to the caller. -/
theorem C10_shutdown_no_error_channel :
    php_shutdown_temporary_directory_decl.ret = CType.void ∧
    php_shutdown_temporary_directory_decl.params = [] ∧
    php_shutdown_temporary_directory_decl.canReportFailure = false :=
  ⟨rfl, rfl, rfl⟩
